import Mathlib

/-!
Verification of the calendar synchronization engine in
`custom_components/apple_calendar_7day/coordinator.py`
(class `AppleCalendarCoordinator`).

The Python code is shallowly embedded: instants are integers (minutes),
Python `datetime` values are a pair of an instant and a timezone-awareness
flag, raising code is modelled with `Except`, and the outcomes of the
external CalDAV server calls (`get_properties`, `search`, `save_event`,
the executor jobs) are passed in as explicit data so that every control
path of the coordinator is a total Lean function.
-/

namespace HACal

/-- Model of a Python `datetime`: an absolute instant (minutes) plus whether
the value carries timezone information (`tzinfo is not None`). -/
structure PyDatetime where
  instant : Int
  aware : Bool
deriving DecidableEq, Repr

/-- Minutes per day, used to place a pure calendar date at its midnight. -/
def minutesPerDay : Int := 1440

/-- Model of `homeassistant.util.dt.now()`: the current local time, always
timezone-aware. -/
def dtUtilNow (now : Int) : PyDatetime := ⟨now, true⟩

/-- Model of `homeassistant.util.dt.as_local`: attaches the configured local
timezone, so the result is always timezone-aware. -/
def asLocal (d : PyDatetime) : PyDatetime := ⟨d.instant, true⟩

/-- Model of `datetime.combine(day, datetime.min.time())`: the timezone-naive
midnight of a calendar day (days are numbered from the epoch). -/
def combineMidnight (day : Int) : PyDatetime := ⟨day * minutesPerDay, false⟩

/-- Model of a Python string handed to the textual branch of
`_parse_datetime`, abstracted by how the two parsers treat it:
`isoDatetime` is a full ISO date-time text (carrying the instant it denotes
and whether the text includes a UTC-offset, i.e. parses timezone-aware),
`isoDateOnly` is a date-only text `YYYY-MM-DD`, `garbage` parses as
neither. -/
inductive StrVal
  | isoDatetime (instant : Int) (aware : Bool)
  | isoDateOnly (day : Int)
  | garbage
deriving DecidableEq, Repr

/-- Model of `homeassistant.util.dt.parse_datetime` in the Home Assistant
versions this integration requires (2022.8+ for
`async_forward_entry_setups`), where the function tries the ciso8601 parser
first: it succeeds on a full ISO date-time text, preserving the awareness of
the text (a text with no UTC offset yields a timezone-naive `datetime`),
and it also succeeds on date-only text `YYYY-MM-DD`, which ciso8601 parses
to the timezone-naive midnight of that date; other text yields `None`. -/
def haParseDatetime : StrVal → Option PyDatetime
  | .isoDatetime i a => some ⟨i, a⟩
  | .isoDateOnly day => some ⟨day * minutesPerDay, false⟩
  | .garbage => none

/-- Model of `date.fromisoformat(str(v).split('T')[0])`: the portion of the
text before a `T` separator parsed as a calendar date. -/
def dateFromIsoSplit : StrVal → Option Int
  | .isoDatetime i _ => some (i / minutesPerDay)
  | .isoDateOnly day => some day
  | .garbage => none

/-- The final `else` branch of `_parse_datetime` (lines 306-318): try
`dt_util.parse_datetime(str(value))` and return its result unchanged when it
succeeds (line 310 applies no `as_local`, so a naive parse stays naive); on
failure try the date portion before `'T'` and build local midnight;
otherwise log and return `dt_util.now()`.  Since `dt_util.parse_datetime`
accepts date-only text, the `date.fromisoformat` fallback is reachable only
for text that parses as neither, where it fails too. -/
def parseDatetimeStr (now : Int) (s : StrVal) : PyDatetime :=
  match haParseDatetime s with
  | some d => d
  | none =>
    match dateFromIsoSplit s with
    | some day => asLocal (combineMidnight day)
    | none => dtUtilNow now

/-- A raw date/time value reaching `_parse_datetime`, i.e. the possible
shapes of `DTSTART.dt` / `DTEND.dt` plus the odd cases the function guards
against: `pyNone` is Python `None`, `pyDatetime` a `datetime` object,
`pyDate` a pure `datetime.date`, `pyStr` a string, `pyOther` any other
object (whose `str()` parses as nothing). -/
inductive Raw
  | pyNone
  | pyDatetime (instant : Int) (aware : Bool)
  | pyDate (day : Int)
  | pyStr (s : StrVal)
  | pyOther
deriving DecidableEq, Repr

/-- `AppleCalendarCoordinator._parse_datetime` (lines 289-321).

Branches, following the source: `None` returns `dt_util.now()`; a `datetime`
is returned unchanged when timezone-aware and localized with `as_local` when
naive.  A pure Python `date` has no `date` attribute (only `datetime` has
the `date()` method, and that case is caught by the preceding `isinstance`
branch), so both `hasattr(dt_value, 'date')` tests are false for it and it
falls through to the string branch where `str(date)` is a date-only text —
which `dt_util.parse_datetime` accepts, so a pure date comes back as the
timezone-naive midnight of that date, never localized; strings and any
other object take the same string branch. -/
def parseDatetimeNorm (now : Int) : Raw → PyDatetime
  | .pyNone => dtUtilNow now
  | .pyDatetime i a => if a then ⟨i, a⟩ else asLocal ⟨i, a⟩
  | .pyDate day => parseDatetimeStr now (.isoDateOnly day)
  | .pyStr s => parseDatetimeStr now s
  | .pyOther => parseDatetimeStr now .garbage

/-- The all-day test of `_parse_event` (line 243):
`isinstance(dtstart.dt, date) and not isinstance(dtstart.dt, datetime)` —
true exactly when the raw start value is a pure calendar date (`datetime`
is a subclass of `date`, so a timed value never qualifies). -/
def isPureDate : Raw → Bool
  | .pyDate _ => true
  | _ => false

/-- A raw VEVENT record as `_parse_event` reads it from
`event.icalendar_component`.  The text fields model
`str(ical_event.get("SUMMARY", ""))` and friends (the `.get` default makes a
missing field the empty string); `dtstart`/`dtend` are the `.dt` payloads of
the `DTSTART`/`DTEND` properties, `none` when the property is absent;
`attendees` and `organizer` carry the already-extracted display names (no
claim concerns the common-name parameter machinery). -/
structure RawEvent where
  summary : String
  description : String
  location : String
  uid : String
  dtstart : Option Raw
  dtend : Option Raw
  attendees : List String
  organizer : String
  rrule : String
deriving DecidableEq, Repr

/-- The parsed event dictionary built at lines 270-283.  `endTime` stands for
the `"end"` key (`end` is reserved in Lean). -/
structure Event where
  uid : String
  summary : String
  description : String
  location : String
  start : PyDatetime
  endTime : PyDatetime
  allDay : Bool
  calendar : String
  attendees : List String
  organizer : String
  rrule : String
  calendarId : String
deriving DecidableEq, Repr

/-- `AppleCalendarCoordinator._parse_event` (lines 216-287): skip (return
`none`) when the record has no `DTSTART`; normalize the start; the end is
the normalized `DTEND` when present, otherwise the start itself
(line 235: `end_dt = self._parse_datetime(dtend.dt) if dtend else start_dt`);
the all-day flag is the type-based test on the raw start value.  The
enclosing `try/except` returns `None` on an unexpected error; the embedded
field accesses are total, so no such error arises here. -/
def parseEvent (now : Int) (e : RawEvent) (calendarId calendarName : String) :
    Option Event :=
  match e.dtstart with
  | none => none
  | some ds =>
    let startDt := parseDatetimeNorm now ds
    let endDt :=
      match e.dtend with
      | some de => parseDatetimeNorm now de
      | none => startDt
    some
      { uid := e.uid
        summary := e.summary
        description := e.description
        location := e.location
        start := startDt
        endTime := endDt
        allDay := isPureDate ds
        calendar := calendarName
        attendees := e.attendees
        organizer := e.organizer
        rrule := e.rrule
        calendarId := calendarId }

/-- The value found under the `DisplayName` tag of a CalDAV properties
answer: a string or a list of strings. -/
inductive NameVal
  | strv (v : String)
  | listv (v : List String)
deriving DecidableEq, Repr

/-- Behaviour of one remote calendar during a refresh cycle: the outcome of
`calendar.get_properties([DisplayName()])` followed by `.get(tag)`
(`Except.error` = the property request raised; `Except.ok none` = the tag is
absent / `None`), and the outcome of `calendar.search(...)` (the raw VEVENT
records, or a raised exception).  The search window arguments
(`start_date`, `end_date`, `event=True`, `expand=True`) are absorbed into
this outcome. -/
structure CalBehavior where
  nameProps : Except Unit (Option NameVal)
  search : Except Unit (List RawEvent)
deriving Repr

/-- `AppleCalendarCoordinator._get_calendar_name` (lines 205-214): any
exception, a missing/falsy value and an empty list all collapse to the
sentinel `"Unknown Calendar"`; a non-empty list yields its head. -/
def getCalendarName (c : CalBehavior) : String :=
  match c.nameProps with
  | .error _ => "Unknown Calendar"
  | .ok none => "Unknown Calendar"
  | .ok (some (.listv (x :: _))) => x
  | .ok (some (.listv [])) => "Unknown Calendar"
  | .ok (some (.strv v)) => if v = "" then "Unknown Calendar" else v

/-- One calendar as seen by the discovery pass of `_setup_client`: its id and
the outcome of the display-name lookup
`calendar.get_properties([DisplayName()])[DisplayName.tag]`
(`Except.error` covers both the request raising and the tag being absent —
either way the indexing raises inside the `try`). -/
structure DiscoveredCalendar where
  id : String
  displayNameLookup : Except Unit NameVal
deriving Repr

/-- The calendar-registration loop of `_setup_client` (lines 104-116),
returning the key set of `self.calendars` in insertion order: for each
discovered calendar the display-name lookup runs inside the `try` *before*
the assignment `self.calendars[calendar.id] = calendar`, so when the lookup
raises the `except` only logs and the calendar is never recorded; the loop
then continues with the next calendar. -/
def setupClientCalendars (cals : List DiscoveredCalendar) : List String :=
  cals.foldl
    (fun acc c =>
      match c.displayNameLookup with
      | .error _ => acc
      | .ok _ => acc ++ [c.id])
    []

/-- One entry of the `calendars` mapping of a snapshot
(lines 154-157: `{"name": ..., "id": ...}`). -/
structure CalendarInfo where
  name : String
  id : String
deriving DecidableEq, Repr

/-- The dictionary returned by `_fetch_events` / `_async_update_data`.
`calendars` is the `calendar_info` dict as an insertion-ordered association
list; `lastUpdated` models the `"last_updated"` key (the `dt_util.now()`
isoformat text, here the instant) and `failedCalendars` the
`"failed_calendars"` key — `none` means the key is absent from the
dictionary. -/
structure Snapshot where
  events : List Event
  calendars : List (String × CalendarInfo)
  lastUpdated : Option Int
  failedCalendars : Option (List String)
deriving DecidableEq, Repr

/-- Whether `calendar.search` raised for this calendar. -/
def searchFailed (c : String × CalBehavior) : Bool :=
  match c.2.search with
  | .error _ => true
  | .ok _ => false

/-- The events contributed by one calendar to `all_events`: nothing when its
search raised, otherwise every raw record that `_parse_event` turns into an
event (the per-event `try/except` and the `if parsed_event:` truthiness test
make this a `filterMap`). -/
def calEvents (now : Int) (c : String × CalBehavior) : List Event :=
  match c.2.search with
  | .error _ => []
  | .ok raws => raws.filterMap (fun r => parseEvent now r c.1 (getCalendarName c.2))

/-- The sort key of line 188 (`key=lambda x: x[ATTR_START]`): comparison of
start instants.  Python compares the `datetime` values themselves; between
two values of the same awareness that is comparison of the instants, and the
sort only runs on awareness-homogeneous lists — a mixed list raises before
any ordering is produced (see `mixedStartAwareness`). -/
def startLE (a b : Event) : Prop := a.start.instant ≤ b.start.instant

instance : DecidableRel startLE :=
  fun a b => inferInstanceAs (Decidable (a.start.instant ≤ b.start.instant))

/-- One iteration of the calendar loop of `_fetch_events` (lines 151-185) on
the accumulator (`all_events`, `calendar_info`, `failed_calendars`): the
name lookup and the `calendar_info[calendar_id] = ...` assignment happen
inside the `try` *before* the search (and cannot raise, `_get_calendar_name`
being total), so the calendar is recorded in `calendar_info` even when its
search then raises, in which case its id is appended to
`failed_calendars`. -/
def fetchStep (now : Int)
    (acc : List Event × List (String × CalendarInfo) × List String)
    (c : String × CalBehavior) :
    List Event × List (String × CalendarInfo) × List String :=
  let name := getCalendarName c.2
  let info := acc.2.1 ++ [(c.1, ⟨name, c.1⟩)]
  match c.2.search with
  | .error _ => (acc.1, info, acc.2.2 ++ [c.1])
  | .ok raws =>
    (acc.1 ++ raws.filterMap (fun r => parseEvent now r c.1 name), info, acc.2.2)

/-- Whether a list of events holds both a timezone-aware and a
timezone-naive start.  Python's comparison of a naive with an aware
`datetime` raises `TypeError`, and any comparison sort of a mixed list must
compare some naive element with some aware one (any transitivity chain
between the two classes contains a crossing comparison), so
`all_events.sort(key=lambda x: x[ATTR_START])` at line 188 raises exactly on
such lists.  Mixed lists are ordinary here: an all-day event parses to a
naive midnight start while a timed event parses aware. -/
def mixedStartAwareness (evs : List Event) : Bool :=
  (evs.any fun e => e.start.aware) && (evs.any fun e => !e.start.aware)

/-- `AppleCalendarCoordinator._fetch_events` (lines 134-203): when
`self.calendars` is empty, return the two-key dictionary
`{"events": [], "calendars": {}}` (no `"last_updated"`, no
`"failed_calendars"`); otherwise loop over the calendars and sort the
collected events by start (Python's stable `list.sort`, modelled by
insertion sort) — when the collected starts mix naive and aware values the
sort raises `TypeError` out of `_fetch_events` (`Except.error`; caught only
by `_async_update_data`); otherwise the four-key dictionary is returned. -/
def fetchEvents (now : Int) (cals : List (String × CalBehavior)) :
    Except Unit Snapshot :=
  if cals.isEmpty then
    .ok { events := [], calendars := [], lastUpdated := none, failedCalendars := none }
  else
    let acc := cals.foldl (fetchStep now) ([], [], [])
    if mixedStartAwareness acc.1 then .error ()
    else
      .ok
        { events := List.insertionSort startLE acc.1
          calendars := acc.2.1
          lastUpdated := some now
          failedCalendars := some acc.2.2 }

/-- `AppleCalendarCoordinator._async_update_data` (lines 118-132) for a
coordinator whose client is already set up (line 120-121 is skipped; in
particular this always holds once a previous snapshot exists).
`fetchOutcome` is the result of the executor job running `_fetch_events`:
`.error` models the whole fetch path raising.  On such an error the previous
snapshot `self.data` — a dictionary carrying at least the `events` and
`calendars` keys, hence truthy whenever present, so `if self.data:` is a
presence test — is returned unchanged when it exists; otherwise the empty
three-key dictionary `{"events": [], "calendars": {},
"last_updated": now}` is returned.  No exception propagates. -/
def asyncUpdateData (prev : Option Snapshot) (fetchOutcome : Except Unit Snapshot)
    (now : Int) : Snapshot :=
  match fetchOutcome with
  | .ok s => s
  | .error _ =>
    match prev with
    | some d => d
    | none =>
      { events := [], calendars := [], lastUpdated := some now, failedCalendars := none }

/-- Result of `async_create_event`: the returned boolean, plus whether the
submission `_create_event_sync` was attempted at all. -/
structure CreateEventOutcome where
  success : Bool
  submitted : Bool
deriving DecidableEq, Repr

/-- `AppleCalendarCoordinator.async_create_event` (lines 323-354): return
`False` without submitting when `calendar_id` is not a key of
`self.calendars`; otherwise run `_create_event_sync` (whose outcome,
`calendar.save_event` included, is `submitOutcome`) — if it raises, the
`except` returns `False`.  On success the method awaits
`async_request_refresh`; the refresh's data update is `asyncUpdateData`,
a total function (the coordinator absorbs fetch failures), so no exception
reaches the `except` block from it and the method returns `True` whatever
the refresh outcome. -/
def asyncCreateEvent (knownCalendarIds : List String) (calendarId : String)
    (submitOutcome : Except Unit Unit) (prev : Option Snapshot)
    (refreshFetchOutcome : Except Unit Snapshot) (now : Int) : CreateEventOutcome :=
  if calendarId ∈ knownCalendarIds then
    match submitOutcome with
    | .error _ => ⟨false, true⟩
    | .ok _ =>
      let _refreshed := asyncUpdateData prev refreshFetchOutcome now
      ⟨true, true⟩
  else ⟨false, false⟩

/-- A setup error as classified at line 72: whether `"401"` occurs in
`str(err)` and whether `"authentication"` occurs in `str(err).lower()`. -/
structure SetupErr where
  contains401 : Bool
  authInMessage : Bool
deriving DecidableEq, Repr

/-- The authentication test of line 72:
`"401" in str(err) or "authentication" in str(err).lower()`. -/
def isAuthError (e : SetupErr) : Bool := e.contains401 || e.authInMessage

/-- Terminal outcome of `_async_setup`: success, the fatal
`ConfigEntryAuthFailed(ERROR_AUTH_FAILED)`, or the recoverable
`UpdateFailed(ERROR_CONNECTION_FAILED)`. -/
inductive SetupResult
  | ok
  | authFailed
  | connectionFailed
deriving DecidableEq, Repr

/-- `max_retries` (line 60). -/
def maxRetries : Nat := 3

/-- `retry_delay` in seconds (line 61). -/
def retryDelay : Nat := 5

/-- The `for attempt in range(max_retries)` loop of `_async_setup`
(lines 63-84) over the remaining attempt indices.  `attemptOutcome i` is
what `self._setup_client` does on attempt `i` (`none` = success, `some e` =
raises an error classified as `e`).  Returns the terminal result, the number
of connection attempts made, and the total seconds slept between attempts.
An authentication-classified error raises `ConfigEntryAuthFailed` at once;
on the last index (`attempt == max_retries - 1`, i.e. no indices remain)
a generic error raises `UpdateFailed`; otherwise the loop sleeps
`retry_delay` seconds and retries. -/
def setupGo (attemptOutcome : Nat → Option SetupErr) :
    List Nat → SetupResult × Nat × Nat
  | [] => (.connectionFailed, 0, 0)
  | attempt :: rest =>
    match attemptOutcome attempt with
    | none => (.ok, 1, 0)
    | some e =>
      if isAuthError e then (.authFailed, 1, 0)
      else if rest.isEmpty then (.connectionFailed, 1, 0)
      else
        let r := setupGo attemptOutcome rest
        (r.1, r.2.1 + 1, r.2.2 + retryDelay)

/-- `AppleCalendarCoordinator._async_setup` (lines 58-84). -/
def asyncSetup (attemptOutcome : Nat → Option SetupErr) :
    SetupResult × Nat × Nat :=
  setupGo attemptOutcome (List.range maxRetries)

/-! ### Characterization of the fetch loop -/

theorem fetchStep_eq (now : Int)
    (acc : List Event × List (String × CalendarInfo) × List String)
    (c : String × CalBehavior) :
    fetchStep now acc c =
      (acc.1 ++ calEvents now c,
       acc.2.1 ++ [(c.1, ⟨getCalendarName c.2, c.1⟩)],
       acc.2.2 ++ (if searchFailed c then [c.1] else [])) := by
  rcases c with ⟨cid, cb⟩
  rcases h : cb.search with e | raws <;>
    simp [fetchStep, calEvents, searchFailed, h]

theorem fetchFold (now : Int) (cals : List (String × CalBehavior))
    (acc : List Event × List (String × CalendarInfo) × List String) :
    cals.foldl (fetchStep now) acc =
      (acc.1 ++ cals.flatMap (calEvents now),
       acc.2.1 ++ cals.map (fun c => (c.1, CalendarInfo.mk (getCalendarName c.2) c.1)),
       acc.2.2 ++ (cals.filter searchFailed).map Prod.fst) := by
  induction cals generalizing acc with
  | nil => simp
  | cons c cs ih =>
    rw [List.foldl_cons, fetchStep_eq, ih]
    rcases hf : searchFailed c <;>
      simp [hf, List.filter_cons, List.append_assoc]

theorem fetchEvents_cons (now : Int) (c0 : String × CalBehavior)
    (cs : List (String × CalBehavior))
    (hmix : mixedStartAwareness ((c0 :: cs).flatMap (calEvents now)) = false) :
    fetchEvents now (c0 :: cs) =
      Except.ok
        { events := List.insertionSort startLE ((c0 :: cs).flatMap (calEvents now))
          calendars :=
            (c0 :: cs).map (fun c => (c.1, CalendarInfo.mk (getCalendarName c.2) c.1))
          lastUpdated := some now
          failedCalendars := some (((c0 :: cs).filter searchFailed).map Prod.fst) } := by
  rw [fetchEvents]
  rw [if_neg (by simp)]
  rw [fetchFold]
  simp only [List.flatMap_cons] at hmix
  simp [hmix]

theorem fetchEvents_cons_error (now : Int) (c0 : String × CalBehavior)
    (cs : List (String × CalBehavior))
    (hmix : mixedStartAwareness ((c0 :: cs).flatMap (calEvents now)) = true) :
    fetchEvents now (c0 :: cs) = Except.error () := by
  rw [fetchEvents]
  rw [if_neg (by simp)]
  rw [fetchFold]
  simp only [List.flatMap_cons] at hmix
  simp [hmix]

/-! ### Claims -/

/-- Claim C1 (stale-serve fallback): when the whole fetch path of a refresh
cycle raises, `_async_update_data` returns the previous snapshot unchanged
if one exists (no exception propagates — `asyncUpdateData` is total), and
otherwise returns the empty snapshot with no events, no calendars, and the
`last_updated` field set to the current time. -/
theorem c1_stale_serve (prev : Snapshot) (now : Int) :
    asyncUpdateData (some prev) (Except.error ()) now = prev ∧
    asyncUpdateData none (Except.error ()) now =
      { events := [], calendars := [], lastUpdated := some now,
        failedCalendars := none } :=
  ⟨rfl, rfl⟩

/-- Claim C3 (create_event is write-then-reread, not transactional): with a
known `calendar_id`, a successful submission makes `async_create_event`
return `True` whatever the outcome of the triggered refresh (in particular
when its fetch raises); an unknown `calendar_id` returns `False` without
attempting the submission; a failed submission returns `False`. -/
theorem c3_create_event (known : List String) (cid : String)
    (prev : Option Snapshot) (refreshOutcome : Except Unit Snapshot) (now : Int) :
    (cid ∈ known →
      asyncCreateEvent known cid (Except.ok ()) prev refreshOutcome now =
        ⟨true, true⟩) ∧
    (cid ∉ known → ∀ s,
      asyncCreateEvent known cid s prev refreshOutcome now = ⟨false, false⟩) ∧
    (cid ∈ known →
      asyncCreateEvent known cid (Except.error ()) prev refreshOutcome now =
        ⟨false, true⟩) := by
  refine ⟨fun h => ?_, fun h s => ?_, fun h => ?_⟩ <;>
    simp [asyncCreateEvent, h]

/-- Witness for C3 at concrete inputs: a successful submission to the known
calendar `"home"` returns `True` even though the triggered refresh's fetch
raises; an unknown id returns `False` without submitting; a failed
submission returns `False`. -/
theorem c3_create_event_witness :
    asyncCreateEvent ["home"] "home" (Except.ok ()) none (Except.error ()) 0 =
      ⟨true, true⟩ ∧
    asyncCreateEvent ["home"] "work" (Except.ok ()) none (Except.error ()) 0 =
      ⟨false, false⟩ ∧
    asyncCreateEvent ["home"] "home" (Except.error ()) none (Except.error ()) 0 =
      ⟨false, true⟩ :=
  ⟨(c3_create_event ["home"] "home" none (Except.error ()) 0).1 (by decide),
   (c3_create_event ["home"] "work" none (Except.error ()) 0).2.1 (by decide) _,
   (c3_create_event ["home"] "home" none (Except.error ()) 0).2.2 (by decide)⟩

/-- Claim C7 (authentication short-circuit during setup): when the first
`_setup_client` attempt raises an error classified as authentication
(a 401 or an authentication message), `_async_setup` raises
`ConfigEntryAuthFailed` after exactly one connection attempt and sleeps not
at all; when every attempt raises a generic connection error, it makes
`max_retries = 3` attempts with a `retry_delay = 5` second sleep between
consecutive attempts (two sleeps in total) and then raises the recoverable
`UpdateFailed`. -/
theorem c7_auth_short_circuit (f : Nat → Option SetupErr) :
    (∀ e, f 0 = some e → isAuthError e = true →
      asyncSetup f = (SetupResult.authFailed, 1, 0)) ∧
    ((∀ i, i < maxRetries → ∃ e, f i = some e ∧ isAuthError e = false) →
      asyncSetup f = (SetupResult.connectionFailed, maxRetries, 2 * retryDelay)) := by
  have hrange : List.range maxRetries = [0, 1, 2] := rfl
  constructor
  · intro e h0 ha
    simp [asyncSetup, hrange, setupGo, h0, ha]
  · intro hall
    obtain ⟨e0, h0, a0⟩ := hall 0 (by decide)
    obtain ⟨e1, h1, a1⟩ := hall 1 (by decide)
    obtain ⟨e2, h2, a2⟩ := hall 2 (by decide)
    simp [asyncSetup, hrange, setupGo, retryDelay, maxRetries, h0, h1, h2, a0, a1, a2]

/-- Witness for C7 at concrete attempt behaviours: an error whose message
contains a 401 marker stops after one attempt with the fatal result; an
error with neither marker on every attempt yields three attempts, ten
seconds of sleep, and the recoverable result. -/
theorem c7_auth_short_circuit_witness :
    asyncSetup (fun _ => some ⟨true, false⟩) = (SetupResult.authFailed, 1, 0) ∧
    asyncSetup (fun _ => some ⟨false, false⟩) =
      (SetupResult.connectionFailed, 3, 10) :=
  ⟨(c7_auth_short_circuit (fun _ => some ⟨true, false⟩)).1 ⟨true, false⟩ rfl rfl,
   (c7_auth_short_circuit (fun _ => some ⟨false, false⟩)).2
     (fun _ _ => ⟨⟨false, false⟩, rfl, rfl⟩)⟩

/-- Fixtures for the C2 counterexample: calendar `"A"`'s search succeeds
with one all-day raw event (naive midnight start) and one timed raw event
(aware start), while calendar `"B"`'s search raises. -/
def c2xRawAllDay : RawEvent :=
  { summary := "allday", description := "", location := "", uid := "u-x1",
    dtstart := some (.pyDate 19900), dtend := none,
    attendees := [], organizer := "", rrule := "" }

def c2xRawTimed : RawEvent :=
  { summary := "timed", description := "", location := "", uid := "u-x2",
    dtstart := some (.pyDatetime 50 true), dtend := none,
    attendees := [], organizer := "", rrule := "" }

def c2xCals : List (String × CalBehavior) :=
  [("A", ⟨.ok (some (.strv "Alpha")), .ok [c2xRawAllDay, c2xRawTimed]⟩),
   ("B", ⟨.ok (some (.strv "Beta")), .error ()⟩)]

/-- Counterexample to claim C2 as stated: in this cycle calendar `"B"`'s
search raises and calendar `"A"` delivers two events, one all-day (naive
start) and one timed (aware start) — so line 188's sort compares a naive
with an aware `datetime` and raises `TypeError` out of `_fetch_events`: no
snapshot is produced, `"B"` is recorded in no failed-calendars list, `"A"`'s
events are lost, and an exception does escape the fetch. -/
theorem c2_counterexample : fetchEvents 0 c2xCals = Except.error () := rfl

/-- Claim C2, amended (per-calendar failure isolation holds for cycles whose
collected events do not mix timezone-naive and timezone-aware starts): in
such a refresh cycle a calendar whose search raises has its id recorded in
the `failed_calendars` list of the produced snapshot, every event parsed
from any calendar whose search succeeded is present in the snapshot's
events, and no exception escapes the fetch; when the collected starts are
mixed (e.g. an all-day plus a timed event), the final sort raises and the
whole fetch raises instead, absorbed only by `_async_update_data`. -/
theorem c2_failure_isolation (now : Int) (cals : List (String × CalBehavior))
    (bid : String) (b : CalBehavior) (hb : (bid, b) ∈ cals)
    (hberr : b.search = Except.error ())
    (aid : String) (a : CalBehavior) (ha : (aid, a) ∈ cals)
    (raws : List RawEvent) (haok : a.search = Except.ok raws) (ev : Event)
    (hev : ev ∈ raws.filterMap (fun r => parseEvent now r aid (getCalendarName a)))
    (hmix : mixedStartAwareness (cals.flatMap (calEvents now)) = false) :
    ∃ s, fetchEvents now cals = Except.ok s ∧
      ∃ failed, s.failedCalendars = some failed ∧
        bid ∈ failed ∧ ev ∈ s.events := by
  cases cals with
  | nil => cases hb
  | cons c0 cs =>
    refine ⟨_, fetchEvents_cons now c0 cs hmix, _, rfl, ?_, ?_⟩
    · exact List.mem_map_of_mem Prod.fst
        (List.mem_filter.mpr ⟨hb, by simp [searchFailed, hberr]⟩)
    · refine (List.mem_insertionSort startLE).mpr ?_
      refine List.mem_flatMap_of_mem ha ?_
      simpa [calEvents, haok] using hev

/-- Fixtures for the C2 witness: three calendars where `"B"`'s search
raises while `"A"` and `"C"` succeed, `"A"` returning one parseable raw
event. -/
def c2RawA : RawEvent :=
  { summary := "standup", description := "", location := "", uid := "u-a",
    dtstart := some (.pyDatetime 100 true), dtend := some (.pyDatetime 160 true),
    attendees := [], organizer := "", rrule := "" }

def c2BehaviorA : CalBehavior :=
  { nameProps := .ok (some (.strv "Alpha")), search := .ok [c2RawA] }

def c2BehaviorB : CalBehavior :=
  { nameProps := .ok (some (.strv "Beta")), search := .error () }

def c2BehaviorC : CalBehavior :=
  { nameProps := .ok (some (.strv "Gamma")), search := .ok [] }

def c2Cals : List (String × CalBehavior) :=
  [("A", c2BehaviorA), ("B", c2BehaviorB), ("C", c2BehaviorC)]

def c2EventA : Event :=
  { uid := "u-a", summary := "standup", description := "", location := "",
    start := ⟨100, true⟩, endTime := ⟨160, true⟩, allDay := false,
    calendar := "Alpha", attendees := [], organizer := "", rrule := "",
    calendarId := "A" }

/-- Witness for C2 (amended) on the three-calendar fixture, whose collected
events all carry aware starts: the fetch completes, `"B"` lands in the
failed list and the event fetched from `"A"` is in the snapshot. -/
theorem c2_failure_isolation_witness :
    ∃ s, fetchEvents 0 c2Cals = Except.ok s ∧
      ∃ failed, s.failedCalendars = some failed ∧
        "B" ∈ failed ∧ c2EventA ∈ s.events :=
  c2_failure_isolation 0 c2Cals "B" c2BehaviorB
    (by simp [c2Cals]) rfl "A" c2BehaviorA (by simp [c2Cals]) [c2RawA] rfl
    c2EventA (by decide) (by decide)

/-- Fixtures for the C9 counterexample: calendar `"P"` delivers an all-day
(naive start) and a timed (aware start) event, calendar `"X"`'s display name
resolves but its search raises. -/
def c9xRawAllDay : RawEvent :=
  { summary := "fair", description := "", location := "", uid := "u-y1",
    dtstart := some (.pyDate 19901), dtend := none,
    attendees := [], organizer := "", rrule := "" }

def c9xRawTimed : RawEvent :=
  { summary := "call", description := "", location := "", uid := "u-y2",
    dtstart := some (.pyDatetime 70 true), dtend := none,
    attendees := [], organizer := "", rrule := "" }

def c9xCals : List (String × CalBehavior) :=
  [("P", ⟨.ok (some (.strv "Primary")), .ok [c9xRawAllDay, c9xRawTimed]⟩),
   ("X", ⟨.ok (some (.strv "XCal")), .error ()⟩)]

/-- Counterexample to claim C9 as stated: calendar `"X"`'s display-name
lookup succeeds and its search raises, yet in this cycle the collected
events mix a naive and an aware start, so `_fetch_events` raises at the
line 188 sort and produces no snapshot at all — `"X"` appears in no
calendars mapping and no failed-calendars list of a resulting snapshot. -/
theorem c9_counterexample : fetchEvents 0 c9xCals = Except.error () := rfl

/-- Claim C9, amended (failed calendars remain listed in the snapshot's
calendars mapping, for cycles whose fetch completes): whenever the collected
events do not mix naive and aware starts, a calendar whose display-name
lookup succeeds but whose search raises appears in the produced snapshot
both in the `calendars` mapping (under its looked-up name) and in the
`failed_calendars` list — it is not removed from the mapping, because
`_fetch_events` records it in `calendar_info` before running the search;
in a mixed cycle the sort raises instead and no snapshot is produced. -/
theorem c9_failed_calendar_listed (now : Int)
    (cals : List (String × CalBehavior)) (cid : String) (cb : CalBehavior)
    (nv : Option NameVal) (_hname : cb.nameProps = Except.ok nv)
    (hmem : (cid, cb) ∈ cals) (herr : cb.search = Except.error ())
    (hmix : mixedStartAwareness (cals.flatMap (calEvents now)) = false) :
    ∃ s, fetchEvents now cals = Except.ok s ∧
      (cid, CalendarInfo.mk (getCalendarName cb) cid) ∈ s.calendars ∧
      ∃ failed, s.failedCalendars = some failed ∧ cid ∈ failed := by
  cases cals with
  | nil => cases hmem
  | cons c0 cs =>
    refine ⟨_, fetchEvents_cons now c0 cs hmix, ?_, _, rfl, ?_⟩
    · exact List.mem_map_of_mem
        (fun c => (c.1, CalendarInfo.mk (getCalendarName c.2) c.1)) hmem
    · exact List.mem_map_of_mem Prod.fst
        (List.mem_filter.mpr ⟨hmem, by simp [searchFailed, herr]⟩)

/-- Witness for C9 (amended): a single calendar `"X"` whose display name
resolves to `"XCal"` and whose search raises (no events collected, so no
mixed starts) is present in the calendars mapping and in the failed list of
the produced snapshot. -/
theorem c9_failed_calendar_listed_witness :
    ∃ s, fetchEvents 0 [("X", ⟨Except.ok (some (NameVal.strv "XCal")), Except.error ()⟩)] =
        Except.ok s ∧
      ("X", CalendarInfo.mk "XCal" "X") ∈ s.calendars ∧
      ∃ failed, s.failedCalendars = some failed ∧ "X" ∈ failed := by
  have h := c9_failed_calendar_listed 0
    [("X", ⟨Except.ok (some (NameVal.strv "XCal")), Except.error ()⟩)]
    "X" ⟨Except.ok (some (NameVal.strv "XCal")), Except.error ()⟩
    (some (NameVal.strv "XCal")) rfl (by simp) rfl (by decide)
  simpa [getCalendarName] using h

/-- Claim C10 (the empty-calendar-set snapshot is shape-degenerate): with no
known calendars, `_fetch_events` returns the dictionary holding only the
(empty) `events` and `calendars` keys — `last_updated` and
`failed_calendars` are absent — whereas every successfully produced snapshot
of a non-empty calendar set carries both `last_updated = now` and a
`failed_calendars` list (a cycle whose sort raises produces no snapshot and
is outside the claim). -/
theorem c10_empty_snapshot_shape (now : Int) (cals : List (String × CalBehavior))
    (s : Snapshot) :
    fetchEvents now [] =
      Except.ok
        { events := [], calendars := [], lastUpdated := none,
          failedCalendars := none } ∧
    (cals ≠ [] → fetchEvents now cals = Except.ok s →
      s.lastUpdated = some now ∧
      ∃ failed, s.failedCalendars = some failed) := by
  refine ⟨rfl, fun h hok => ?_⟩
  cases cals with
  | nil => exact absurd rfl h
  | cons c0 cs =>
    cases hmix : mixedStartAwareness ((c0 :: cs).flatMap (calEvents now)) with
    | true =>
      rw [fetchEvents_cons_error now c0 cs hmix] at hok
      cases hok
    | false =>
      rw [fetchEvents_cons now c0 cs hmix] at hok
      obtain rfl := (Except.ok.injEq _ _).mp hok
      exact ⟨rfl, _, rfl⟩

/-- The snapshot produced for the one-calendar set of the C10 witness. -/
def c10Snap : Snapshot :=
  { events := [], calendars := [("K", CalendarInfo.mk "Unknown Calendar" "K")],
    lastUpdated := some 0, failedCalendars := some [] }

/-- Witness for C10: the empty calendar set yields the two-key snapshot,
while a one-calendar set successfully yields a snapshot carrying both extra
keys. -/
theorem c10_empty_snapshot_shape_witness :
    fetchEvents 0 [] =
      Except.ok
        { events := [], calendars := [], lastUpdated := none,
          failedCalendars := none } ∧
    c10Snap.lastUpdated = some 0 ∧
    ∃ failed, c10Snap.failedCalendars = some failed :=
  ⟨(c10_empty_snapshot_shape 0 [("K", ⟨Except.ok none, Except.ok []⟩)] c10Snap).1,
   (c10_empty_snapshot_shape 0 [("K", ⟨Except.ok none, Except.ok []⟩)] c10Snap).2
     (by simp) rfl⟩

/-- Whether a discovered calendar's display-name lookup succeeded. -/
def lookupOk (c : DiscoveredCalendar) : Bool :=
  match c.displayNameLookup with
  | .ok _ => true
  | .error _ => false

theorem setupClientCalendars_go (cals : List DiscoveredCalendar)
    (acc : List String) :
    cals.foldl
      (fun acc c =>
        match c.displayNameLookup with
        | .error _ => acc
        | .ok _ => acc ++ [c.id])
      acc = acc ++ (cals.filter lookupOk).map DiscoveredCalendar.id := by
  induction cals generalizing acc with
  | nil => simp
  | cons c cs ih =>
    rw [List.foldl_cons]
    rcases h : c.displayNameLookup with e | nv <;>
      simp [h, ih, lookupOk, List.filter_cons, List.append_assoc]

/-- Counterexample to claim C4 as stated: in the discovery pass of
`_setup_client`, the calendar `"cal-bad"`, whose display-name lookup raises,
is *not* kept in the discovered set (under a sentinel name or otherwise) —
only `"cal-good"` is recorded. -/
theorem c4_counterexample :
    setupClientCalendars
      [⟨"cal-bad", Except.error ()⟩, ⟨"cal-good", Except.ok (NameVal.strv "Work")⟩]
      = ["cal-good"] ∧
    "cal-bad" ∉
      setupClientCalendars
        [⟨"cal-bad", Except.error ()⟩, ⟨"cal-good", Except.ok (NameVal.strv "Work")⟩] := by
  refine ⟨rfl, by decide⟩

/-- Claim C4, amended: during discovery (`_setup_client`) a calendar whose
display-name lookup raises is dropped from the discovered set — exactly the
calendars with a successful lookup are kept, in order — while discovery of
the remaining calendars continues; the sentinel name `"Unknown Calendar"`
is substituted only by the fetch-time name lookup `_get_calendar_name`,
which never fails. -/
theorem c4_discovery_drop (cals : List DiscoveredCalendar) :
    setupClientCalendars cals =
      (cals.filter lookupOk).map DiscoveredCalendar.id ∧
    ∀ (c : CalBehavior) (e : Unit), c.nameProps = Except.error e →
      getCalendarName c = "Unknown Calendar" := by
  constructor
  · rw [setupClientCalendars, setupClientCalendars_go]
    simp
  · intro c e h
    simp [getCalendarName, h]

/-- Witness for C4 (amended) at concrete inputs: a failing lookup leaves
the discovered set empty, and the fetch-time name of a calendar whose
properties request raises is the sentinel. -/
theorem c4_discovery_drop_witness :
    setupClientCalendars [⟨"solo", Except.error ()⟩] = [] ∧
    getCalendarName ⟨Except.error (), Except.ok []⟩ = "Unknown Calendar" :=
  ⟨((c4_discovery_drop [⟨"solo", Except.error ()⟩]).1).trans (by decide),
   (c4_discovery_drop []).2 ⟨Except.error (), Except.ok []⟩ () rfl⟩

/-- Fixture for the C5 counterexample: a raw record whose `DTEND` denotes an
instant strictly before its `DTSTART`. -/
def c5RawBackwards : RawEvent :=
  { summary := "inverted", description := "", location := "", uid := "u-5",
    dtstart := some (.pyDatetime 100 true), dtend := some (.pyDatetime 50 true),
    attendees := [], organizer := "", rrule := "" }

/-- The event `_parse_event` produces from `c5RawBackwards`: the bounds are
taken as given, start at instant 100 and end at instant 50. -/
def c5EventBackwards : Event :=
  { uid := "u-5", summary := "inverted", description := "", location := "",
    start := ⟨100, true⟩, endTime := ⟨50, true⟩, allDay := false,
    calendar := "C", attendees := [], organizer := "", rrule := "",
    calendarId := "c" }

/-- Counterexample to claim C5 as stated: `_parse_event` performs no
reordering of the two bounds, so the raw record with `DTEND` before
`DTSTART` produces an event with `start > end` — the invariant
`start <= end` does not hold for every parsed event. -/
theorem c5_counterexample :
    parseEvent 0 c5RawBackwards "c" "C" = some c5EventBackwards ∧
    ¬ (c5EventBackwards.start.instant ≤ c5EventBackwards.endTime.instant) := by
  decide

/-- Claim C5, amended: when the raw record has no end value, the parsed
event's end equals its start (line 235), and hence `start <= end`; when an
end value is present the parser uses its normalization unchanged, with no
reordering against the start, so the invariant holds only in the
missing-end case. -/
theorem c5_end_defaults_to_start (now : Int) (e : RawEvent)
    (cid cname : String) (ev : Event) (hnoend : e.dtend = none)
    (hparse : parseEvent now e cid cname = some ev) :
    ev.endTime = ev.start ∧ ev.start.instant ≤ ev.endTime.instant := by
  cases hds : e.dtstart with
  | none => simp [parseEvent, hds] at hparse
  | some ds =>
    simp [parseEvent, hds, hnoend] at hparse
    cases hparse
    exact ⟨rfl, le_refl _⟩

/-- Witness for C5 (amended): a raw record carrying only a `DTSTART`
parses to an event whose end equals its start. -/
theorem c5_end_defaults_to_start_witness :
    ∃ ev, parseEvent 0
      ⟨"solo", "", "", "u-5w", some (.pyDatetime 77 true), none, [], "", ""⟩
      "c" "C" = some ev ∧ ev.endTime = ev.start ∧
      ev.start.instant ≤ ev.endTime.instant := by
  refine ⟨_, rfl, c5_end_defaults_to_start 0
    ⟨"solo", "", "", "u-5w", some (.pyDatetime 77 true), none, [], "", ""⟩
    "c" "C" _ rfl rfl⟩

/-- Counterexample to claim C6 as stated: a textual raw value that
`dt_util.parse_datetime` accepts but that carries no UTC offset (e.g. the
text `2024-06-01T10:15:00`) parses to a timezone-naive `datetime`, which
line 310 of `_parse_datetime` returns unchanged — the output is *not*
always timezone-aware. -/
theorem c6_counterexample :
    (parseDatetimeNorm 0 (Raw.pyStr (StrVal.isoDatetime 615 false))).aware =
      false := by decide

/-- Claim C6, amended: `_parse_datetime` is total (embedded as a total Lean
function: every branch returns, with `dt_util.now()` as the worst-case
fallback on unparseable text or unknown objects), and its output is
timezone-aware for `None` inputs, `datetime` inputs (aware kept, naive
localized) and unparseable values — but every value routed through
`dt_util.parse_datetime` at line 310 is returned exactly as parsed: a
textual date-time without UTC offset comes back timezone-naive, and a pure
date or date-only text comes back as the timezone-naive midnight of that
date, never localized. -/
theorem c6_normalize_total_aware (now : Int) (v : Raw) :
    ((parseDatetimeNorm now v).aware = true ∨
      (∃ i, v = Raw.pyStr (StrVal.isoDatetime i false) ∧
        parseDatetimeNorm now v = ⟨i, false⟩) ∨
      (∃ day, (v = Raw.pyDate day ∨ v = Raw.pyStr (StrVal.isoDateOnly day)) ∧
        parseDatetimeNorm now v = ⟨day * minutesPerDay, false⟩)) ∧
    parseDatetimeNorm now (Raw.pyStr StrVal.garbage) = dtUtilNow now := by
  refine ⟨?_, rfl⟩
  cases v with
  | pyNone => exact Or.inl rfl
  | pyDatetime i a =>
    cases a
    · exact Or.inl rfl
    · exact Or.inl rfl
  | pyDate day => exact Or.inr (Or.inr ⟨day, Or.inl rfl, rfl⟩)
  | pyStr s =>
    cases s with
    | isoDatetime i a =>
      cases a
      · exact Or.inr (Or.inl ⟨i, rfl, rfl⟩)
      · exact Or.inl rfl
    | isoDateOnly day => exact Or.inr (Or.inr ⟨day, Or.inr rfl, rfl⟩)
    | garbage => exact Or.inl rfl
  | pyOther => exact Or.inl rfl

/-- Fixture for the C8 counterexample: a raw event whose start is the pure
calendar date numbered 19875. -/
def c8AllDayRaw : RawEvent :=
  { summary := "bday", description := "", location := "", uid := "u-8a",
    dtstart := some (.pyDate 19875), dtend := none,
    attendees := [], organizer := "", rrule := "" }

/-- The event `_parse_event` produces from `c8AllDayRaw`: the start is the
timezone-naive midnight of day 19875 (instant 19875 * 1440 = 28620000),
returned unchanged by line 310. -/
def c8AllDayEvent : Event :=
  { uid := "u-8a", summary := "bday", description := "", location := "",
    start := ⟨28620000, false⟩, endTime := ⟨28620000, false⟩, allDay := true,
    calendar := "C", attendees := [], organizer := "", rrule := "",
    calendarId := "c" }

/-- Counterexample to claim C8 as stated: the pure-date start does parse
with `all_day = true`, but its start is the *timezone-naive* midnight of
that date — `str(date)` parses via `dt_util.parse_datetime` and line 310
returns it unchanged, so `as_local` is never applied and the start is not
the local (aware) midnight the claim describes. -/
theorem c8_counterexample :
    parseEvent 0 c8AllDayRaw "c" "C" = some c8AllDayEvent ∧
    c8AllDayEvent.allDay = true ∧
    c8AllDayEvent.start.aware = false ∧
    c8AllDayEvent.start ≠ asLocal (combineMidnight 19875) := by decide

/-- Claim C8, amended (all-day classification is type-based; the start is
the naive midnight): a raw event whose start value is a pure calendar date
parses with `all_day = true` and its start at the timezone-naive midnight of
that date (never localized), while a raw event whose start is a timed
`datetime` — any instant, including exactly midnight — parses with
`all_day = false`. -/
theorem c8_all_day_type_based (now : Int) (e : RawEvent)
    (cid cname : String) (ev : Event) (day : Int) :
    (e.dtstart = some (Raw.pyDate day) →
      parseEvent now e cid cname = some ev →
        ev.allDay = true ∧ ev.start = combineMidnight day) ∧
    (∀ i a, e.dtstart = some (Raw.pyDatetime i a) →
      parseEvent now e cid cname = some ev → ev.allDay = false) := by
  constructor
  · intro hds hp
    simp [parseEvent, hds] at hp
    cases hp
    exact ⟨rfl, rfl⟩
  · intro i a hds hp
    simp [parseEvent, hds] at hp
    cases hp
    rfl

/-- Witness for C8 (amended) at concrete inputs: the pure date numbered
19875 parses all-day with start at that day's naive midnight (instant
19875 * 1440 = 28620000), while a timed start at exactly that midnight
instant parses with `all_day = false`. -/
theorem c8_all_day_type_based_witness :
    ∃ ev1 ev2,
      parseEvent 0 c8AllDayRaw "c" "C" = some ev1 ∧
      ev1.allDay = true ∧ ev1.start = combineMidnight 19875 ∧
      parseEvent 0
        ⟨"night", "", "", "u-8b", some (.pyDatetime 28620000 true), none, [], "", ""⟩
        "c" "C" = some ev2 ∧
      ev2.allDay = false := by
  refine ⟨_, _, rfl, ?_, ?_, rfl, ?_⟩
  · exact ((c8_all_day_type_based 0 c8AllDayRaw "c" "C" _ 19875).1 rfl rfl).1
  · exact ((c8_all_day_type_based 0 c8AllDayRaw "c" "C" _ 19875).1 rfl rfl).2
  · exact (c8_all_day_type_based 0
      ⟨"night", "", "", "u-8b", some (.pyDatetime 28620000 true), none, [], "", ""⟩
      "c" "C" _ 0).2 28620000 true rfl rfl

end HACal
